import Mathlib

/-!
Verification of the VerifyForge TypeScript SDK client
(`src/client.ts`, `src/errors.ts`, `src/types.ts`).

The SDK is a thin HTTP client: it checks its inputs, issues one transport
call per operation, and translates HTTP status codes and transport failures
into a closed taxonomy of error values.  We embed that pipeline shallowly:

* JSON bodies are an inductive `Json` value; the result of `response.json()`
  is `Except String Json` (`.error msg` models the promise rejecting with a
  `SyntaxError` whose message is `msg`).
* The error classes of `errors.ts` become a structure `VFError` tagged by
  `ErrorKind`, with one smart constructor per class, reproducing the
  status/`errorCode` fields each class constructor fixes.
* `makeRequest` is split into the literal pieces of the source: the status
  dispatch of the `try` block (`statusDispatch`) and the `catch` clause
  (`catchClause`), composed over an abstract transport outcome
  (`FetchOutcome`).
* The constructor and the two public operations (`validate`,
  `validateBulk`) are embedded directly; an operation returns the request
  it would issue (`.ok`) or the client-side error (`.error`), so
  "no network call is made" is visible as the `.error` case.
-/

namespace VerifyForge

/-- Minimal JSON values, the universe of decoded response bodies
(`response.json()` results) and of `details` mappings
(`Record<string, unknown>` is modelled as an association list). -/
inductive Json where
  | null : Json
  | bool : Bool → Json
  | num : Int → Json
  | str : String → Json
  | arr : List Json → Json
  | obj : List (String × Json) → Json

/-- The tag distinguishing the error classes of `errors.ts`
(`VerifyForgeError` and its six subclasses). -/
inductive ErrorKind where
  | base
  | authentication
  | rateLimit
  | insufficientCredits
  | validation
  | api
  | network
  deriving Repr, DecidableEq

/-- An error value of the SDK taxonomy: the fields every `VerifyForgeError`
carries (`errors.ts` lines 8–34). -/
structure VFError where
  kind : ErrorKind
  message : String
  statusCode : Option Nat
  errorCode : Option String
  details : Option Json
  docsUrl : String

/-- `new VerifyForgeError(message)` with no options: the base class
(`errors.ts` line 8). -/
def mkVerifyForgeError (message : String) : VFError :=
  ⟨.base, message, none, none, none, "https://verifyforge.com/api-docs"⟩

/-- `new AuthenticationError(message)` (`errors.ts` line 80): status 401,
code `AUTHENTICATION_ERROR`. -/
def mkAuthenticationError (message : String) : VFError :=
  ⟨.authentication, message, some 401, some "AUTHENTICATION_ERROR", none,
    "https://verifyforge.com/api-docs"⟩

/-- `new RateLimitError(message)` (`errors.ts` line 93): status 429,
code `RATE_LIMIT_ERROR`. -/
def mkRateLimitError (message : String) : VFError :=
  ⟨.rateLimit, message, some 429, some "RATE_LIMIT_ERROR", none,
    "https://verifyforge.com/api-docs"⟩

/-- `new InsufficientCreditsError(message)` (`errors.ts` line 106):
status 402, code `INSUFFICIENT_CREDITS`. -/
def mkInsufficientCreditsError (message : String) : VFError :=
  ⟨.insufficientCredits, message, some 402, some "INSUFFICIENT_CREDITS", none,
    "https://verifyforge.com/api-docs"⟩

/-- `new ValidationError(message, details)` (`errors.ts` line 119):
status 400, code `VALIDATION_ERROR`, optional details. -/
def mkValidationError (message : String) (details : Option Json) : VFError :=
  ⟨.validation, message, some 400, some "VALIDATION_ERROR", details,
    "https://verifyforge.com/api-docs"⟩

/-- `new APIError(message, statusCode)` (`errors.ts` line 133):
code `API_ERROR`, carries the numeric status. -/
def mkAPIError (message : String) (statusCode : Nat) : VFError :=
  ⟨.api, message, some statusCode, some "API_ERROR", none,
    "https://verifyforge.com/api-docs"⟩

/-- `new NetworkError(message)` (`errors.ts` line 146): no status code,
code `NETWORK_ERROR`. -/
def mkNetworkError (message : String) : VFError :=
  ⟨.network, message, none, some "NETWORK_ERROR", none,
    "https://verifyforge.com/api-docs"⟩

/-- Field lookup on a decoded body: `errorData.key` on the value produced by
`response.json()`, `none` when the value is not an object or lacks the key. -/
def jsonLookup (j : Json) (key : String) : Option Json :=
  match j with
  | .obj fields => fields.lookup key
  | _ => none

/-- JavaScript truthiness of a JSON value: `null`, `false`, `0` and the
empty string are falsy; every other number, string, boolean, and every
array and object (even empty ones) are truthy. -/
def jsTruthy : Json → Bool
  | .null => false
  | .bool b => b
  | .num n => n != 0
  | .str s => s != ""
  | .arr _ => true
  | .obj _ => true

mutual

/-- JavaScript `String(v)` coercion of a JSON value, as the `Error`
constructor applies it to a non-string message: booleans and numbers print
as themselves, a plain object prints as `[object Object]`, and an array
prints as its elements comma-joined (a `null` element printing as the
empty string). -/
def jsString : Json → String
  | .null => "null"
  | .bool b => if b then "true" else "false"
  | .num n => toString n
  | .str s => s
  | .arr xs => jsStringElems xs
  | .obj _ => "[object Object]"

/-- `Array.prototype.join(",")` over coerced elements, with `null`
elements contributing the empty string. -/
def jsStringElems : List Json → String
  | [] => ""
  | [Json.null] => ""
  | [x] => jsString x
  | Json.null :: xs => "," ++ jsStringElems xs
  | x :: xs => jsString x ++ "," ++ jsStringElems xs

end

/-- `new SomeError(errorData.error || fallback, ...)` on a non-null decoded
body: the property lookup yields the field on an object and `undefined` on
any other non-null value; `||` keeps it when truthy and falls back
otherwise; the `Error` constructor then coerces the selected value with
JavaScript `String(...)`. -/
def errorMessage (errorData : Json) (fallback : String) : String :=
  match jsonLookup errorData "error" with
  | some v => if jsTruthy v then jsString v else fallback
  | none => fallback

/-- `response.ok`: status in the inclusive range 200–299. -/
def responseOk (status : Nat) : Bool :=
  200 ≤ status && status ≤ 299

/-- What the `try` block of `makeRequest` can throw: one of the SDK's own
errors, the `SyntaxError` produced when `response.json()` rejects (carrying
the parse failure's message), or the `TypeError` produced by the property
access `errorData.error` when the decoded body is `null` (its
engine-specific message is never read downstream). -/
inductive Thrown where
  | vfError : VFError → Thrown
  | jsParseError : String → Thrown
  | jsTypeError : Thrown

/-- The status dispatch of `makeRequest` (`client.ts` lines 104–138),
evaluated on the raw response status and the outcome of reading the body as
JSON.  Branches appear in source order: 401, 402, 429, 400, `>= 500`,
`!response.ok`, then the 2xx success decode.  In the 400 and 2xx branches a
body read failure is a thrown `SyntaxError` (the call has no `.catch`);
in the `!response.ok` branch the read failure is absorbed by
`.catch(() => ({error: 'Request failed'}))`.  In the 400 and
`!response.ok` branches the property access `errorData.error` throws a
`TypeError` when the decoded body is `null` (there is no null guard); on
any other decoded value it yields the object field or `undefined`. -/
def statusDispatch (status : Nat) (body : Except String Json) :
    Except Thrown Json :=
  if status = 401 then
    .error (.vfError (mkAuthenticationError "Invalid API key"))
  else if status = 402 then
    .error (.vfError (mkInsufficientCreditsError "Insufficient credits"))
  else if status = 429 then
    .error (.vfError (mkRateLimitError "Rate limit exceeded"))
  else if status = 400 then
    match body with
    | .ok Json.null => .error .jsTypeError
    | .ok errorData =>
        .error (.vfError (mkValidationError
          (errorMessage errorData "Validation failed")
          (jsonLookup errorData "details")))
    | .error parseMsg => .error (.jsParseError parseMsg)
  else if 500 ≤ status then
    .error (.vfError (mkAPIError "Internal server error" status))
  else if !responseOk status then
    let errorData :=
      match body with
      | .ok j => j
      | .error _ => Json.obj [("error", Json.str "Request failed")]
    match errorData with
    | Json.null => .error .jsTypeError
    | _ =>
        .error (.vfError (mkAPIError (errorMessage errorData "Request failed")
          status))
  else
    match body with
    | .ok j => .ok j
    | .error parseMsg => .error (.jsParseError parseMsg)

/-- A value reaching the `catch` clause of `makeRequest`, classified the way
the clause's `instanceof` / `name` tests distinguish cases: an SDK error, an
`Error` named `AbortError`, a `TypeError`, any other `Error` (with its
message), or a thrown non-`Error` value. -/
inductive Caught where
  | vf : VFError → Caught
  | abortErr : String → Caught
  | typeErr : String → Caught
  | otherErr : String → Caught
  | nonError : Caught

/-- The `catch` clause of `makeRequest` (`client.ts` lines 139–161):
re-throw SDK errors unchanged; `AbortError` → Network "Request timed out";
`TypeError` → Network "Network request failed"; any other `Error` → base
error with its message; a non-`Error` value → base error
"Unknown error occurred". -/
def catchClause : Caught → VFError
  | .vf e => e
  | .abortErr _ => mkNetworkError "Request timed out"
  | .typeErr _ => mkNetworkError "Network request failed"
  | .otherErr msg => mkVerifyForgeError msg
  | .nonError => mkVerifyForgeError "Unknown error occurred"

/-- How a value thrown inside the `try` block is seen by the `catch` clause:
an SDK error passes the `instanceof VerifyForgeError` test; a `SyntaxError`
from `response.json()` is an `Error` that is neither named `AbortError` nor
a `TypeError`, so it falls to the final wrap; the `TypeError` from the
property access on a `null` body passes the `instanceof TypeError` test
(its engine-specific message is ignored by the clause). -/
def caughtOfThrown : Thrown → Caught
  | .vfError e => .vf e
  | .jsParseError msg => .otherErr msg
  | .jsTypeError => .typeErr "Cannot read properties of null"

/-- The possible outcomes of the `fetch` call itself: a resolved response
(status plus the JSON-read outcome of its body), or a rejection — an
`AbortError` (deadline fired), a `TypeError` (transport failure), another
`Error` with a message, or a thrown non-`Error` value. -/
inductive FetchOutcome where
  | response : Nat → Except String Json → FetchOutcome
  | fetchAbort : String → FetchOutcome
  | fetchTypeError : String → FetchOutcome
  | fetchOther : String → FetchOutcome
  | fetchNonError : FetchOutcome

/-- `makeRequest` (`client.ts` lines 67–162) as a function of the transport
outcome: the status dispatch of the `try` block, with everything it throws
— and every rejection of `fetch` itself — routed through the `catch`
clause.  Every failure surfaced to the caller is a `VFError`. -/
def makeRequest (outcome : FetchOutcome) : Except VFError Json :=
  match outcome with
  | .response status body =>
      match statusDispatch status body with
      | .ok j => .ok j
      | .error t => .error (catchClause (caughtOfThrown t))
  | .fetchAbort msg => .error (catchClause (.abortErr msg))
  | .fetchTypeError msg => .error (catchClause (.typeErr msg))
  | .fetchOther msg => .error (catchClause (.otherErr msg))
  | .fetchNonError => .error (catchClause .nonError)

/-- The fixed header object of the `fetch` call (`client.ts` lines 91–96). -/
def requestHeaders (apiKey : String) : List (String × String) :=
  [("X-API-Key", apiKey),
   ("Content-Type", "application/json"),
   ("Accept", "application/json"),
   ("User-Agent", "VerifyForge-TypeScript-SDK/1.0.0")]

/-- Client configuration (`types.ts` `VerifyForgeConfig`): required key,
optional base URL, optional timeout in milliseconds.  An empty `apiKey`
models the falsy (empty or absent) credential. -/
structure VerifyForgeConfig where
  apiKey : String
  baseUrl : Option String
  timeout : Option Nat
  deriving Repr, DecidableEq

/-- `s.replace(/\/$/, '')`: the regex matches one trailing `/`, so exactly
one trailing slash is removed when present. -/
def stripTrailingSlash (s : String) : String :=
  match s.data.getLast? with
  | some '/' => ⟨s.data.dropLast⟩
  | _ => s

/-- JS `x || d` on an optional string: the default when the value is absent
or empty (falsy), the value otherwise. -/
def strOrElse (v : Option String) (d : String) : String :=
  match v with
  | some s => if s = "" then d else s
  | none => d

/-- JS `x || d` on an optional number: the default when the value is absent
or zero (falsy), the value otherwise. -/
def natOrElse (v : Option Nat) (d : Nat) : Nat :=
  match v with
  | some n => if n = 0 then d else n
  | none => d

/-- `config.baseUrl?.replace(/\/$/, '') || 'https://verifyforge.com'`
(`client.ts` line 54). -/
def resolveBaseUrl (baseUrl : Option String) : String :=
  strOrElse (baseUrl.map stripTrailingSlash) "https://verifyforge.com"

/-- `config.timeout || 30000` (`client.ts` line 55). -/
def resolveTimeout (timeout : Option Nat) : Nat :=
  natOrElse timeout 30000

/-- The immutable state a constructed client holds (`client.ts`
lines 38–40). -/
structure Client where
  apiKey : String
  baseUrl : String
  timeout : Nat
  deriving Repr, DecidableEq

/-- The constructor (`client.ts` lines 48–56): throws a plain
`Error('API key is required')` when the key is falsy, otherwise stores the
key, the normalized-or-default base URL, and the timeout-or-default. -/
def construct (config : VerifyForgeConfig) : Except String Client :=
  if config.apiKey = "" then .error "API key is required"
  else .ok
    { apiKey := config.apiKey
      baseUrl := resolveBaseUrl config.baseUrl
      timeout := resolveTimeout config.timeout }

/-- `getBaseUrl()` (`client.ts` line 243). -/
def getBaseUrl (c : Client) : String := c.baseUrl

/-- `getTimeout()` (`client.ts` line 250). -/
def getTimeout (c : Client) : Nat := c.timeout

/-- A request the client hands to the transport: method, endpoint path, and
the params record (query parameters for GET, JSON body for POST). -/
structure Request where
  method : String
  endpoint : String
  params : Json

/-- A JavaScript argument bound to a parameter typed `string`: either an
actual string or a non-string runtime value (its JS truthiness recorded). -/
inductive JSInput where
  | str : String → JSInput
  | nonString : Bool → JSInput
  deriving Repr, DecidableEq

/-- `validate(email)` up to the point of transport (`client.ts`
lines 187–195): `!email || typeof email !== 'string'` throws a
`ValidationError` before any network call; otherwise the GET request to
`/api/validate` with the email as query parameter is issued. -/
def validate (email : JSInput) : Except VFError Request :=
  match email with
  | .str s =>
      if s = "" then
        .error (mkValidationError "Email must be a non-empty string" none)
      else
        .ok ⟨"GET", "/api/validate", Json.obj [("email", Json.str s)]⟩
  | .nonString _ =>
      .error (mkValidationError "Email must be a non-empty string" none)

/-- A JavaScript argument bound to a parameter typed `string[]`: either an
actual array of strings or a non-array runtime value. -/
inductive BulkInput where
  | arr : List String → BulkInput
  | notArray : BulkInput
  deriving Repr, DecidableEq

/-- `validateBulk(emails)` up to the point of transport (`client.ts`
lines 221–238): a non-array or empty input throws a `ValidationError`;
more than 100 items throws a `ValidationError` carrying
`{provided, maximum: 100}`; otherwise the POST request to
`/api/validate/bulk` with body `{emails}` is issued. -/
def validateBulk (emails : BulkInput) : Except VFError Request :=
  match emails with
  | .notArray =>
      .error (mkValidationError "Emails must be a non-empty array" none)
  | .arr es =>
      if es.length = 0 then
        .error (mkValidationError "Emails must be a non-empty array" none)
      else if es.length > 100 then
        .error (mkValidationError "Maximum 100 emails allowed per request"
          (some (Json.obj
            [("provided", Json.num es.length), ("maximum", Json.num 100)])))
      else
        .ok ⟨"POST", "/api/validate/bulk",
          Json.obj [("emails", Json.arr (es.map Json.str))]⟩

/-- C1: a 401 response yields the Authentication error "Invalid API key",
a 402 response the InsufficientCredits error "Insufficient credits", and a
429 response the RateLimit error "Rate limit exceeded", for every body —
decoded or undecodable alike — since these three branches precede all other
status handling and never read the body. -/
theorem c1_special_statuses (body : Except String Json) :
    makeRequest (.response 401 body) =
      .error (mkAuthenticationError "Invalid API key") ∧
    makeRequest (.response 402 body) =
      .error (mkInsufficientCreditsError "Insufficient credits") ∧
    makeRequest (.response 429 body) =
      .error (mkRateLimitError "Rate limit exceeded") ∧
    (mkAuthenticationError "Invalid API key").kind = ErrorKind.authentication ∧
    (mkInsufficientCreditsError "Insufficient credits").kind =
      ErrorKind.insufficientCredits ∧
    (mkRateLimitError "Rate limit exceeded").kind = ErrorKind.rateLimit :=
  ⟨rfl, rfl, rfl, rfl, rfl, rfl⟩

/-- C2: `validateBulk` rejects a non-array and an empty array with a
Validation error, rejects a list of more than 100 items with a Validation
error whose details carry the provided count and the maximum 100, and for
any list of 1 to 100 items the client-side checks pass and the bulk request
is issued. -/
theorem c2_validateBulk_client_checks (es : List String) :
    validateBulk .notArray =
      .error (mkValidationError "Emails must be a non-empty array" none) ∧
    validateBulk (.arr []) =
      .error (mkValidationError "Emails must be a non-empty array" none) ∧
    (100 < es.length →
      validateBulk (.arr es) =
        .error (mkValidationError "Maximum 100 emails allowed per request"
          (some (Json.obj
            [("provided", Json.num es.length), ("maximum", Json.num 100)])))) ∧
    (1 ≤ es.length → es.length ≤ 100 →
      validateBulk (.arr es) =
        .ok ⟨"POST", "/api/validate/bulk",
          Json.obj [("emails", Json.arr (es.map Json.str))]⟩) := by
  refine ⟨rfl, rfl, fun h => ?_, fun h1 h2 => ?_⟩
  · show (if es.length = 0 then _ else if es.length > 100 then _ else _) = _
    rw [if_neg (by omega), if_pos (by omega)]
  · show (if es.length = 0 then _ else if es.length > 100 then _ else _) = _
    rw [if_neg (by omega), if_neg (by omega)]

/-- Witness for C2: a 101-item list is rejected with detail
`{provided: 101, maximum: 100}`, and a singleton list passes. -/
theorem c2_validateBulk_client_checks_witness :
    validateBulk (.arr (List.replicate 101 "a")) =
      .error (mkValidationError "Maximum 100 emails allowed per request"
        (some (Json.obj
          [("provided", Json.num (List.replicate 101 "a").length),
           ("maximum", Json.num 100)]))) ∧
    validateBulk (.arr ["a"]) =
      .ok ⟨"POST", "/api/validate/bulk",
        Json.obj [("emails", Json.arr [Json.str "a"])]⟩ :=
  ⟨(c2_validateBulk_client_checks (List.replicate 101 "a")).2.2.1 (by simp),
   (c2_validateBulk_client_checks ["a"]).2.2.2 (by simp) (by simp)⟩

/-- C3: `validate` rejects the empty string and any non-string argument
with a Validation error before any transport, and for every non-empty
string the check passes and the GET request is issued. -/
theorem c3_validate_client_checks (s : String) (t : Bool) :
    validate (.str "") =
      .error (mkValidationError "Email must be a non-empty string" none) ∧
    validate (.nonString t) =
      .error (mkValidationError "Email must be a non-empty string" none) ∧
    (s ≠ "" → validate (.str s) =
      .ok ⟨"GET", "/api/validate", Json.obj [("email", Json.str s)]⟩) := by
  refine ⟨rfl, rfl, fun h => ?_⟩
  show (if s = "" then _ else _) = _
  rw [if_neg h]

/-- Witness for C3 at the non-empty string "a". -/
theorem c3_validate_client_checks_witness :
    validate (.str "a") =
      .ok ⟨"GET", "/api/validate", Json.obj [("email", Json.str "a")]⟩ :=
  (c3_validate_client_checks "a" true).2.2 (by decide)

/-- C4 counterexample: a 400 response whose body fails to decode as JSON
does not produce a Validation-kind error — the decode failure thrown by
`response.json()` escapes to the catch clause and is wrapped as a base-kind
error carrying the parse failure's message. -/
theorem c4_counterexample :
    makeRequest (.response 400 (.error "Unexpected end of JSON input")) =
      .error (mkVerifyForgeError "Unexpected end of JSON input") ∧
    (mkVerifyForgeError "Unexpected end of JSON input").kind ≠
      ErrorKind.validation :=
  ⟨rfl, by decide⟩

/-- C4 (amended): a 400 response whose body decodes as JSON to a non-null
value yields a Validation error carrying the JavaScript string coercion of
the payload's error field when that field is truthy (fallback
"Validation failed" when the field is absent or falsy) together with the
payload's details; a body decoding to JSON null makes the error-field
access throw a `TypeError`, surfaced as the Network error
"Network request failed"; a body that fails to decode propagates as a
base-kind error with the parse failure's message. -/
theorem c4_status400 (j : Json) (m : String) :
    (j ≠ Json.null →
      makeRequest (.response 400 (.ok j)) =
        .error (mkValidationError (errorMessage j "Validation failed")
          (jsonLookup j "details"))) ∧
    makeRequest (.response 400 (.ok Json.null)) =
      .error (mkNetworkError "Network request failed") ∧
    makeRequest (.response 400 (.error m)) =
      .error (mkVerifyForgeError m) ∧
    errorMessage (Json.obj [("success", Json.bool false),
        ("error", Json.str "bad email"),
        ("details", Json.obj [("field", Json.str "email")])])
      "Validation failed" = "bad email" ∧
    errorMessage (Json.obj [("success", Json.bool false)])
      "Validation failed" = "Validation failed" ∧
    errorMessage (Json.obj [("error", Json.num 42)])
      "Validation failed" = "42" := by
  refine ⟨fun hj => ?_, rfl, rfl, rfl, rfl, rfl⟩
  cases j with
  | null => exact absurd rfl hj
  | bool b => rfl
  | num n => rfl
  | str s => rfl
  | arr xs => rfl
  | obj fs => rfl

/-- Witness for C4 at the spec's example payload (non-null body), yielding
the Validation error with message "bad email" and detail
`{field: "email"}`. -/
theorem c4_status400_witness :
    makeRequest (.response 400 (.ok (Json.obj [("success", Json.bool false),
        ("error", Json.str "bad email"),
        ("details", Json.obj [("field", Json.str "email")])]))) =
      .error (mkValidationError "bad email"
        (some (Json.obj [("field", Json.str "email")]))) :=
  (c4_status400 (Json.obj [("success", Json.bool false),
      ("error", Json.str "bad email"),
      ("details", Json.obj [("field", Json.str "email")])]) "x").1
    (fun h => Json.noConfusion h)

/-- Unfolding lemma: on a resolved response, `makeRequest` is the status
dispatch with everything it throws routed through the catch clause. -/
theorem makeRequest_response (status : Nat) (body : Except String Json) :
    makeRequest (.response status body) =
      match statusDispatch status body with
      | .ok j => .ok j
      | .error t => .error (catchClause (caughtOfThrown t)) := rfl

/-- C5 counterexample: a 404 response whose body is the valid JSON literal
null does not produce an API-kind error — the unguarded property access
`errorData.error` throws a `TypeError`, which the catch clause surfaces as
the Network error "Network request failed". -/
theorem c5_counterexample :
    makeRequest (.response 404 (.ok Json.null)) =
      .error (mkNetworkError "Network request failed") ∧
    (mkNetworkError "Network request failed").kind ≠ ErrorKind.api :=
  ⟨rfl, fun h => ErrorKind.noConfusion h⟩

/-- C5 (amended): every response with status at least 500 yields the API
error "Internal server error" carrying the status, for every body (the
body is never read); every other non-2xx status outside
{400, 401, 402, 429} and below 500 decodes the body (substituting the
payload `{error: "Request failed"}` when decoding fails) and, when the
decoded value is non-null, raises an API error carrying the status and the
JavaScript string coercion of the payload's truthy error field (fallback
"Request failed" when the field is absent or falsy); a body decoding to
JSON null makes the error-field access throw a `TypeError`, surfaced as
the Network error "Network request failed". -/
theorem c5_api_errors (status : Nat) (body : Except String Json) (j : Json)
    (m : String) :
    (500 ≤ status →
      makeRequest (.response status body) =
        .error (mkAPIError "Internal server error" status)) ∧
    (responseOk status = false → status ≠ 400 → status ≠ 401 → status ≠ 402 →
      status ≠ 429 → status < 500 →
      (j ≠ Json.null →
        makeRequest (.response status (.ok j)) =
          .error (mkAPIError (errorMessage j "Request failed") status)) ∧
      makeRequest (.response status (.ok Json.null)) =
        .error (mkNetworkError "Network request failed") ∧
      makeRequest (.response status (.error m)) =
        .error (mkAPIError "Request failed" status)) := by
  constructor
  · intro h
    have hd : statusDispatch status body =
        .error (.vfError (mkAPIError "Internal server error" status)) := by
      unfold statusDispatch
      rw [if_neg (by omega), if_neg (by omega), if_neg (by omega),
        if_neg (by omega), if_pos h]
    rw [makeRequest_response, hd]
    rfl
  · intro hok h400 h401 h402 h429 h500
    have hd : ∀ b : Except String Json, statusDispatch status b =
        (let errorData :=
          match b with
          | .ok j => j
          | .error _ => Json.obj [("error", Json.str "Request failed")]
        match errorData with
        | Json.null => .error Thrown.jsTypeError
        | _ =>
            .error (.vfError (mkAPIError
              (errorMessage errorData "Request failed") status))) := by
      intro b
      unfold statusDispatch
      rw [if_neg h401, if_neg h402, if_neg h429, if_neg h400,
        if_neg (by omega), if_pos (by simp [hok])]
    refine ⟨fun hj => ?_, ?_, ?_⟩
    · rw [makeRequest_response, hd (.ok j)]
      cases j with
      | null => exact absurd rfl hj
      | bool b => rfl
      | num n => rfl
      | str s => rfl
      | arr xs => rfl
      | obj fs => rfl
    · rw [makeRequest_response, hd (.ok Json.null)]
      rfl
    · rw [makeRequest_response, hd (.error m)]
      rfl

/-- Witness for C5 at status 503 (generic message, body present but
ignored), and at status 418 with a decodable non-null body, a JSON null
body, and an undecodable body. -/
theorem c5_api_errors_witness :
    makeRequest (.response 503 (.ok (Json.str "ignored"))) =
      .error (mkAPIError "Internal server error" 503) ∧
    makeRequest (.response 418 (.ok (Json.obj [("error", Json.str "teapot")]))) =
      .error (mkAPIError "teapot" 418) ∧
    makeRequest (.response 418 (.ok Json.null)) =
      .error (mkNetworkError "Network request failed") ∧
    makeRequest (.response 418 (.error "bad json")) =
      .error (mkAPIError "Request failed" 418) := by
  refine ⟨(c5_api_errors 503 (.ok (Json.str "ignored")) Json.null "x").1
    (by decide), ?_, ?_, ?_⟩
  · exact ((c5_api_errors 418 (.ok Json.null)
      (Json.obj [("error", Json.str "teapot")]) "bad json").2
      (by decide) (by decide) (by decide) (by decide) (by decide)
      (by decide)).1 (fun h => Json.noConfusion h)
  · exact ((c5_api_errors 418 (.ok Json.null)
      (Json.obj [("error", Json.str "teapot")]) "bad json").2
      (by decide) (by decide) (by decide) (by decide) (by decide)
      (by decide)).2.1
  · exact ((c5_api_errors 418 (.ok Json.null)
      (Json.obj [("error", Json.str "teapot")]) "bad json").2
      (by decide) (by decide) (by decide) (by decide) (by decide)
      (by decide)).2.2

/-- C6: every 2xx response with a decodable body resolves to exactly that
decoded body (round-trip); a 2xx response whose body fails to decode is
surfaced as a base-kind error (not Validation, API, or Network) carrying
the decode failure's message. -/
theorem c6_success_decode (status : Nat) (j : Json) (m : String) :
    (responseOk status = true →
      makeRequest (.response status (.ok j)) = .ok j ∧
      makeRequest (.response status (.error m)) =
        .error (mkVerifyForgeError m)) ∧
    (mkVerifyForgeError m).kind = ErrorKind.base ∧
    (mkVerifyForgeError m).kind ≠ ErrorKind.validation ∧
    (mkVerifyForgeError m).kind ≠ ErrorKind.api ∧
    (mkVerifyForgeError m).kind ≠ ErrorKind.network := by
  refine ⟨fun hok => ?_, rfl, fun h => ErrorKind.noConfusion h,
    fun h => ErrorKind.noConfusion h, fun h => ErrorKind.noConfusion h⟩
  have h : 200 ≤ status ∧ status ≤ 299 := by
    simpa [responseOk] using hok
  have hd : ∀ b : Except String Json, statusDispatch status b =
      match b with
      | .ok j => .ok j
      | .error parseMsg => .error (.jsParseError parseMsg) := by
    intro b
    unfold statusDispatch
    rw [if_neg (by omega), if_neg (by omega), if_neg (by omega),
      if_neg (by omega), if_neg (by omega), if_neg (by simp [hok])]
  constructor
  · rw [makeRequest_response, hd (.ok j)]
  · rw [makeRequest_response, hd (.error m)]
    rfl

/-- Witness for C6 at status 200 with a decoded object body and with an
undecodable body. -/
theorem c6_success_decode_witness :
    makeRequest (.response 200 (.ok (Json.obj [("success", Json.bool true)]))) =
      .ok (Json.obj [("success", Json.bool true)]) ∧
    makeRequest (.response 200 (.error "Unexpected token")) =
      .error (mkVerifyForgeError "Unexpected token") :=
  (c6_success_decode 200 (Json.obj [("success", Json.bool true)])
    "Unexpected token").1 (by decide)

/-- C7: the catch clause re-throws any error of the SDK taxonomy unchanged,
maps a transport abort to the Network error "Request timed out", maps any
other transport-level failure (a `TypeError` from `fetch`) to the Network
error "Network request failed", and wraps any remaining exception as a
base-kind error with its message, or "Unknown error occurred" when no
message is available; every failure `makeRequest` surfaces is thereby a
value of the taxonomy. -/
theorem c7_caught_classification (e : VFError) (m : String) :
    catchClause (Caught.vf e) = e ∧
    makeRequest (.fetchAbort m) =
      .error (mkNetworkError "Request timed out") ∧
    makeRequest (.fetchTypeError m) =
      .error (mkNetworkError "Network request failed") ∧
    makeRequest (.fetchOther m) = .error (mkVerifyForgeError m) ∧
    makeRequest .fetchNonError =
      .error (mkVerifyForgeError "Unknown error occurred") :=
  ⟨rfl, rfl, rfl, rfl, rfl⟩

/-- C8 counterexample: the claim's "the resolved deadline equals the given
deadline" fails at the specified-but-falsy deadline 0 — construction with
timeout 0 resolves the deadline to 30000, not 0. -/
theorem c8_counterexample :
    Except.map getTimeout
      (construct { apiKey := "k", baseUrl := none, timeout := some 0 }) =
      .ok 30000 ∧
    (30000 : Nat) ≠ 0 :=
  ⟨rfl, by decide⟩

/-- C8 (amended): construction fails with the error "API key is required"
exactly when the credential is empty, issuing no network call; otherwise
the resolved endpoint root is the given root with one trailing slash
removed whenever that normalization is non-empty (default
"https://verifyforge.com" when unspecified or normalized to empty), the
resolved deadline is the given deadline whenever it is nonzero (default
30000 when unspecified or zero), and `getBaseUrl` / `getTimeout` return
exactly these resolved values. -/
theorem c8_construction (cfg : VerifyForgeConfig) (b : String) (t : Nat)
    (c : Client) :
    (cfg.apiKey = "" → construct cfg = .error "API key is required") ∧
    (cfg.apiKey ≠ "" → construct cfg =
      .ok { apiKey := cfg.apiKey, baseUrl := resolveBaseUrl cfg.baseUrl,
            timeout := resolveTimeout cfg.timeout }) ∧
    resolveBaseUrl none = "https://verifyforge.com" ∧
    resolveTimeout none = 30000 ∧
    (stripTrailingSlash b ≠ "" →
      resolveBaseUrl (some b) = stripTrailingSlash b) ∧
    (t ≠ 0 → resolveTimeout (some t) = t) ∧
    (construct cfg = .ok c →
      getBaseUrl c = resolveBaseUrl cfg.baseUrl ∧
      getTimeout c = resolveTimeout cfg.timeout) := by
  refine ⟨fun h => ?_, fun h => ?_, rfl, rfl, fun h => ?_, fun h => ?_,
    fun h => ?_⟩
  · unfold construct
    rw [if_pos h]
  · unfold construct
    rw [if_neg h]
  · show (if stripTrailingSlash b = "" then "https://verifyforge.com"
      else stripTrailingSlash b) = stripTrailingSlash b
    rw [if_neg h]
  · show (if t = 0 then 30000 else t) = t
    rw [if_neg h]
  · unfold construct at h
    by_cases hk : cfg.apiKey = ""
    · rw [if_pos hk] at h
      exact absurd h (by simp)
    · rw [if_neg hk] at h
      cases h
      exact ⟨rfl, rfl⟩

/-- Witness for C8 at a config with a trailing-slash root and a nonzero
deadline, plus the empty-credential failure. -/
theorem c8_construction_witness :
    construct { apiKey := "", baseUrl := none, timeout := none } =
      .error "API key is required" ∧
    construct { apiKey := "key", baseUrl := some "https://x.com/",
                timeout := some 60000 } =
      .ok { apiKey := "key", baseUrl := resolveBaseUrl (some "https://x.com/"),
            timeout := resolveTimeout (some 60000) } ∧
    resolveBaseUrl (some "https://x.com/") = stripTrailingSlash "https://x.com/" ∧
    resolveTimeout (some 60000) = 60000 ∧
    (getBaseUrl { apiKey := "key", baseUrl := "https://x.com",
                  timeout := 60000 } = resolveBaseUrl (some "https://x.com/") ∧
     getTimeout { apiKey := "key", baseUrl := "https://x.com",
                  timeout := 60000 } = resolveTimeout (some 60000)) :=
  ⟨(c8_construction ⟨"", none, none⟩ "x" 1 ⟨"", "", 0⟩).1 rfl,
   (c8_construction ⟨"key", some "https://x.com/", some 60000⟩ "x" 1
     ⟨"", "", 0⟩).2.1 (by decide),
   (c8_construction ⟨"", none, none⟩ "https://x.com/" 1
     ⟨"", "", 0⟩).2.2.2.2.1 (by decide),
   (c8_construction ⟨"", none, none⟩ "x" 60000 ⟨"", "", 0⟩).2.2.2.2.2.1
     (by decide),
   (c8_construction ⟨"key", some "https://x.com/", some 60000⟩ "x" 1
     ⟨"key", "https://x.com", 60000⟩).2.2.2.2.2.2 rfl⟩

/-- C9 counterexample: the request carries four fixed headers, not three —
the client-identifier header `User-Agent` is among them. -/
theorem c9_counterexample :
    (requestHeaders "k").length = 4 ∧
    ("User-Agent", "VerifyForge-TypeScript-SDK/1.0.0") ∈ requestHeaders "k" :=
  ⟨rfl, by decide⟩

/-- C9 (amended): the executor attaches exactly four fixed headers —
the credential header `X-API-Key` carrying the API key, the JSON
content-type declaration, the JSON accept declaration, and the fixed
client-identifier string `User-Agent: VerifyForge-TypeScript-SDK/1.0.0` —
agreeing with the external-interface section's four-header list. -/
theorem c9_headers (k : String) :
    (requestHeaders k).length = 4 ∧
    (requestHeaders k).lookup "X-API-Key" = some k ∧
    (requestHeaders k).lookup "Content-Type" = some "application/json" ∧
    (requestHeaders k).lookup "Accept" = some "application/json" ∧
    (requestHeaders k).lookup "User-Agent" =
      some "VerifyForge-TypeScript-SDK/1.0.0" :=
  ⟨rfl, rfl, rfl, rfl, rfl⟩

/-- C10: falsy configuration values are treated as unspecified — a zero
deadline resolves to the default 30000, an endpoint root that is empty (or a
bare "/", which normalizes to empty) resolves to the default
"https://verifyforge.com" — so for every config a constructed client's
`getTimeout` is never 0 and its `getBaseUrl` is never the empty string. -/
theorem c10_falsy_defaults (cfg : VerifyForgeConfig) (b : Option String)
    (t : Option Nat) :
    resolveTimeout (some 0) = 30000 ∧
    resolveBaseUrl (some "") = "https://verifyforge.com" ∧
    resolveBaseUrl (some "/") = "https://verifyforge.com" ∧
    resolveTimeout t ≠ 0 ∧
    resolveBaseUrl b ≠ "" ∧
    Except.map getTimeout (construct cfg) ≠ .ok 0 ∧
    Except.map getBaseUrl (construct cfg) ≠ .ok "" := by
  have ht : ∀ v : Option Nat, resolveTimeout v ≠ 0 := by
    intro v
    match v with
    | none => decide
    | some n =>
        show (if n = 0 then 30000 else n) ≠ 0
        split
        · decide
        · assumption
  have hb : ∀ v : Option String, resolveBaseUrl v ≠ "" := by
    intro v
    match v with
    | none => decide
    | some s =>
        show (if stripTrailingSlash s = "" then "https://verifyforge.com"
          else stripTrailingSlash s) ≠ ""
        split
        · decide
        · assumption
  refine ⟨rfl, rfl, rfl, ht t, hb b, ?_, ?_⟩
  · unfold construct
    by_cases hk : cfg.apiKey = ""
    · rw [if_pos hk]
      exact fun hcon => Except.noConfusion hcon
    · rw [if_neg hk]
      exact fun hcon => ht cfg.timeout (Except.ok.inj hcon)
  · unfold construct
    by_cases hk : cfg.apiKey = ""
    · rw [if_pos hk]
      exact fun hcon => Except.noConfusion hcon
    · rw [if_neg hk]
      exact fun hcon => hb cfg.baseUrl (Except.ok.inj hcon)

end VerifyForge
